import Mathlib

/-!
Verification development for the sl-circulars-monitor pipeline.

Shallow embedding of the pieces of `ocr_vision.py`, `run_pipeline.py`,
`new_detector.py` and `reprocess_sinhala.py` that the verified properties
are about: the monthly Vision budget ledger, the per-page OCR ladder, the
scraping/pagination loop with (number, language) change detection, the
Groq retry loop, the `LABEL: value` response parser, and the database row
construction.

External effects (HTTP calls, Tesseract, the filesystem) are modelled by
explicit parameters: the outcome of each Vision API call, the text
Tesseract would return for a page, the parsed rows a listing page would
yield, and the outcome of each Groq completion attempt.  Python `int`s
that are only ever counters are `Nat`; where the source computes a
possibly negative difference (`remaining = EFFECTIVE_CAP - pages_used`)
the embedding computes in `Int`.
-/

namespace Circulars

/-! ## Budget ledger (`ocr_vision.py`) -/

/-- `MONTHLY_CAP = 1000` (ocr_vision.py line 40). -/
def MONTHLY_CAP : Nat := 1000

/-- `SAFETY_BUFFER = 50` (ocr_vision.py line 41). -/
def SAFETY_BUFFER : Nat := 50

/-- `EFFECTIVE_CAP = MONTHLY_CAP - SAFETY_BUFFER` (ocr_vision.py line 42). -/
def EFFECTIVE_CAP : Nat := MONTHLY_CAP - SAFETY_BUFFER

/-- The persisted usage record `{month, pages_used}` of `vision_usage.json`
(the `last_updated` timestamp carries no information the properties
mention and is dropped). -/
structure Usage where
  month : String
  pages_used : Nat
deriving Repr, DecidableEq

/-- `increment_usage` (ocr_vision.py lines 78-81): `usage['pages_used'] += 1`
followed by `save_usage`; the in-memory record after the call. -/
def increment_usage (u : Usage) : Usage :=
  { u with pages_used := u.pages_used + 1 }

/-- `can_use_vision` (ocr_vision.py lines 74-75):
`(EFFECTIVE_CAP - usage['pages_used']) > 0`, computed in `Int` like Python. -/
def can_use_vision (u : Usage) : Bool :=
  (EFFECTIVE_CAP : Int) - (u.pages_used : Int) > 0

/-- Outcome of one attempted Google Vision API request, seen from
`ocr_page`'s `try` block: the decoded text on success, or an exception
(`urllib.error.HTTPError` or anything else). -/
inductive CloudOutcome where
  | success (text : String)
  | httpError (code : Nat) (body : String)
  | otherError (msg : String)
deriving Repr, DecidableEq

/-- Whether the outcome is a confirmed successful response. -/
def CloudOutcome.isSuccess : CloudOutcome → Bool
  | .success _ => true
  | _ => false

/-- `method = 'vision' | 'tesseract' | 'native'` (ocr_vision.py line 136). -/
inductive OcrMethod where
  | vision
  | tesseract
  | native
deriving Repr, DecidableEq

/-- The value of `ocr_page` — the `(text, method)` pair — together with the
usage record as the call leaves it (the Python function mutates `usage`
in place). -/
structure OcrPageResult where
  text : String
  method : OcrMethod
  usage : Usage
deriving Repr, DecidableEq

/-- `ocr_page(page, usage)` (ocr_vision.py lines 131-182).

`googleKey` is the module constant `GOOGLE_VISION_API_KEY` (empty string
when the environment variable is unset), `tessText` the text
`tesseract_ocr_page(page)` would return for this page, and `outcome` what
the Vision API request would do if issued.

  * `remaining = EFFECTIVE_CAP - usage['pages_used']`; if `remaining <= 0`
    return the Tesseract result — no API call, no increment;
  * if `not GOOGLE_VISION_API_KEY` return the Tesseract result;
  * otherwise issue the call: on success `increment_usage(usage)` and
    return `(text, 'vision')`; on `HTTPError` or any other exception
    return the Tesseract result with usage untouched. -/
def ocr_page (u : Usage) (googleKey : String) (tessText : String)
    (outcome : CloudOutcome) : OcrPageResult :=
  let remaining : Int := (EFFECTIVE_CAP : Int) - (u.pages_used : Int)
  if remaining ≤ 0 then
    ⟨tessText, .tesseract, u⟩
  else if googleKey = "" then
    ⟨tessText, .tesseract, u⟩
  else
    match outcome with
    | .success t => ⟨t, .vision, increment_usage u⟩
    | .httpError _ _ => ⟨tessText, .tesseract, u⟩
    | .otherError _ => ⟨tessText, .tesseract, u⟩

/-- The environment of one `ocr_page` call: the configured key, the
Tesseract fallback text, and the behaviour of the Vision endpoint. -/
structure CallEnv where
  key : String
  tessText : String
  outcome : CloudOutcome
deriving Repr, DecidableEq

/-- Run a sequence of `ocr_page` calls against the ledger, threading the
usage record through — the only writes to `pages_used` within a month,
since `increment_usage`'s sole call site is `ocr_page`'s success branch. -/
def runCalls (u : Usage) : List CallEnv → Usage
  | [] => u
  | e :: rest => runCalls (ocr_page u e.key e.tessText e.outcome).usage rest

/-! ## Extraction ladder

`ocr_vision.py`'s `extract_text` (lines 185-217) and `run_pipeline.py`'s
`extract_text` (lines 226-251).  A page is represented by the data the
external world supplies for it: the stripped native text
`page.get_text().strip()`, the text the Tesseract fallback would produce,
and (for the Vision ladder) the behaviour of the Vision endpoint. -/

/-- Membership in the regex class `SINHALA_RE = [඀-෿]`. -/
def isSinhalaChar (c : Char) : Bool :=
  decide (0x0d80 ≤ c.toNat) && decide (c.toNat ≤ 0x0dff)

/-- `len(SINHALA_RE.findall(s))`: the number of Sinhala characters. -/
def siCount (s : String) : Nat :=
  (s.data.filter isSinhalaChar).length

/-- The native-text acceptance test of `ocr_vision.extract_text`
(lines 199-202): `len(native) > 100 and ratio >= MIN_SINHALA_RATIO`, with
`ratio = si_chars / len(native)` and the threshold 0.05; the float
comparison is embedded as the exact rational test
`20 * si_chars ≥ len(native)` (for an empty string the code sets the
ratio to 0, and the length test already fails). -/
def visionPageNativeOk (native : String) : Bool :=
  decide (100 < native.length) && decide (native.length ≤ 20 * siCount native)

/-- One page of a PDF as `ocr_vision.extract_text` consumes it. -/
structure VisionPage where
  native : String
  tessText : String
  outcome : CloudOutcome
deriving Repr, DecidableEq

/-- The tally `stats = {'native': 0, 'vision': 0, 'tesseract': 0}`. -/
structure VisionStats where
  native : Nat
  vision : Nat
  tesseract : Nat
deriving Repr, DecidableEq

/-- `stats[method] += 1`. -/
def VisionStats.bump (st : VisionStats) : OcrMethod → VisionStats
  | .native => { st with native := st.native + 1 }
  | .vision => { st with vision := st.vision + 1 }
  | .tesseract => { st with tesseract := st.tesseract + 1 }

/-- Python page-banner text of `ocr_vision.extract_text`. -/
def methodName : OcrMethod → String
  | .native => "native"
  | .vision => "vision"
  | .tesseract => "tesseract"

/-- `ocr_vision.extract_text(pdf_path, usage)` (lines 185-217) over the
pages of the document, with `i` the running page index and `st` the tally
accumulated so far: a page whose native text passes the length-and-ratio
test is kept verbatim (tallied `native`); every other page goes through
`ocr_page` with cap enforcement, and the usage record is threaded
through. -/
def extract_text_vision (googleKey : String) (u : Usage) (st : VisionStats)
    (i : Nat) : List VisionPage → String × VisionStats × Usage
  | [] => ("", st, u)
  | pg :: rest =>
    if visionPageNativeOk pg.native then
      let part := "\n--- Page " ++ toString (i + 1) ++ " [native] ---\n"
        ++ pg.native
      let r := extract_text_vision googleKey u (st.bump .native) (i + 1) rest
      (part ++ r.1, r.2)
    else
      let o := ocr_page u googleKey pg.tessText pg.outcome
      let part := "\n--- Page " ++ toString (i + 1) ++ " ["
        ++ methodName o.method ++ "] ---\n" ++ o.text
      let r := extract_text_vision googleKey o.usage (st.bump o.method)
        (i + 1) rest
      (part ++ r.1, r.2)

/-- `MIN_CHARS_PAGE = 50` (run_pipeline.py line 52). -/
def MIN_CHARS_PAGE : Nat := 50

/-- One page as `run_pipeline.extract_text` consumes it: the stripped
native text and what `_ocr_page` (local Tesseract) would return. -/
structure PipelinePage where
  native : String
  ocrText : String
deriving Repr, DecidableEq

/-- `run_pipeline.extract_text(pdf_path, lang_code)` (lines 226-251):
per page, native text with at least `MIN_CHARS_PAGE` characters is kept;
otherwise the page is OCR'd locally and `ocr_used` is set when the OCR
text is non-blank.  Returns `(full_text, ocr_used)`. -/
def extract_text_pipeline (i : Nat) (ocr_used : Bool) :
    List PipelinePage → String × Bool
  | [] => ("", ocr_used)
  | pg :: rest =>
    if MIN_CHARS_PAGE ≤ pg.native.length then
      let part := "\n--- Page " ++ toString (i + 1) ++ " ---\n" ++ pg.native
      let r := extract_text_pipeline (i + 1) ocr_used rest
      (part ++ r.1, r.2)
    else
      let part := "\n--- Page " ++ toString (i + 1) ++ " [OCR] ---\n"
        ++ pg.ocrText
      let r := extract_text_pipeline (i + 1)
        (ocr_used || !(pg.ocrText.trim == "")) rest
      (part ++ r.1, r.2)

/-! ## Python string primitives

Structural re-implementations of the Python string operations the parser
uses (`strip`, `splitlines`, `partition`, `upper`, `lower`, `in`), so
that every definition evaluates by kernel reduction on concrete input. -/

/-- The default whitespace set of Python `str.strip`. -/
def pyIsSpace (c : Char) : Bool :=
  c == ' ' || c == '\t' || c == '\n' || c == '\r'
    || c == Char.ofNat 0x0b || c == Char.ofNat 0x0c

/-- `s.strip()` on the character list. -/
def pyStripChars (s : List Char) : List Char :=
  ((s.dropWhile pyIsSpace).reverse.dropWhile pyIsSpace).reverse

/-- `s.strip()`. -/
def pyStrip (s : String) : String := String.mk (pyStripChars s.data)

/-- Split a character list at every occurrence of `sep` (the separator
dropped). -/
def splitOnChar (sep : Char) : List Char → List (List Char)
  | [] => [[]]
  | c :: rest =>
    let r := splitOnChar sep rest
    if c == sep then [] :: r
    else
      match r with
      | [] => [[c]]
      | h :: t => (c :: h) :: t

/-- Whether the first list starts the second. -/
def prefixMatch : List Char → List Char → Bool
  | [], _ => true
  | _ :: _, [] => false
  | p :: ps, c :: cs => p == c && prefixMatch ps cs

/-- Whether `pat` occurs inside the list. -/
def subOccurs (pat : List Char) : List Char → Bool
  | [] => prefixMatch pat []
  | c :: rest => prefixMatch pat (c :: rest) || subOccurs pat rest

/-- Python `pat in s` for strings: `pat` occurs as a substring of `s`. -/
def containsSub (s pat : String) : Bool := subOccurs pat.data s.data

/-- Python `line.partition(':')` without its middle component: the text
before the first colon, and everything after it (empty when the line
holds no colon). -/
def pyPartitionColonChars : List Char → List Char × List Char
  | [] => ([], [])
  | c :: rest =>
    if c == ':' then ([], rest)
    else
      let r := pyPartitionColonChars rest
      (c :: r.1, r.2)

/-! ## Completion response parsing -/

/-- The `result` dict built by `parse_response`: the six labelled fields —
`none` both when a label never occurred and when its value was the
literal `null`, the two being indistinguishable to every reader, which
accesses the dict with `.get` — plus `key_instructions`, which
`run_pipeline.parse_response` fills via
`result.setdefault('key_instructions', [])`, here the field default. -/
structure ParsedFields where
  topic : Option String := none
  summary : Option String := none
  issued_by : Option String := none
  issued_date : Option String := none
  applies_to : Option String := none
  deadline : Option String := none
  key_instructions : List String := []
deriving Repr, DecidableEq

/-- One iteration of the `for line in raw.strip().splitlines()` loop
(run_pipeline.py lines 305-313 and reprocess_sinhala.py lines 139-147):
a line containing a colon is split at its first colon; the stripped,
upper-cased label selects a field; the stripped value is stored, the
literal `null` (case-insensitive) mapped to an absent value; lines
without a colon, and unrecognized labels, leave the record unchanged. -/
def applyLine (acc : ParsedFields) (line : String) : ParsedFields :=
  if containsSub line ":" then
    let p := pyPartitionColonChars line.data
    let key := String.mk ((pyStripChars p.1).map Char.toUpper)
    let rawVal := String.mk (pyStripChars p.2)
    let val : Option String :=
      if String.mk (rawVal.data.map Char.toLower) = "null" then none
      else some rawVal
    if key = "TOPIC" then { acc with topic := val }
    else if key = "SUMMARY" then { acc with summary := val }
    else if key = "ISSUED_BY" then { acc with issued_by := val }
    else if key = "ISSUED_DATE" then { acc with issued_date := val }
    else if key = "APPLIES_TO" then { acc with applies_to := val }
    else if key = "DEADLINE" then { acc with deadline := val }
    else acc
  else acc

/-- `run_pipeline.parse_response` (lines 299-315); Python `splitlines` is
modelled as splitting on the line feed, after the outer `strip()` (the
modelling difference — `splitlines` also recognizes rarer terminators
and drops one trailing empty line — only ever adds lines without a
colon, which the loop ignores). -/
def parse_response (raw : String) : ParsedFields :=
  ((splitOnChar '\n' (pyStrip raw).data).map String.mk).foldl applyLine {}

/-- `reprocess_sinhala.parse_response` (lines 133-148): the identical
line loop without the `setdefault('key_instructions', [])`; its result is
only ever read through the six labelled fields, so it shares the record
type. -/
def parse_response_reprocess (raw : String) : ParsedFields :=
  ((splitOnChar '\n' (pyStrip raw).data).map String.mk).foldl applyLine {}

/-! ## Database row construction (`save_to_db`) -/

/-- `json.dumps` escaping of one character (only the quote and backslash
escapes can arise on this code path). -/
def jsonEscapeChar (c : Char) : String :=
  if c = '"' then "\\\""
  else if c = '\\' then "\\\\"
  else String.singleton c

/-- A JSON string literal for `s`. -/
def jsonQuote (s : String) : String :=
  "\"" ++ String.join (s.data.map jsonEscapeChar) ++ "\""

/-- `json.dumps(xs, ensure_ascii=False)` for a list of strings: the
quoted items joined by a comma and space inside brackets (so the empty
list encodes to a two-character bracket pair). -/
def jsonDumpsStrList (xs : List String) : String :=
  "[" ++ String.intercalate ", " (xs.map jsonQuote) ++ "]"

/-- A row of the `circulars` table as `save_to_db`
(run_pipeline.py lines 381-405) binds the INSERT OR REPLACE parameters;
`processed_at` is a wall-clock timestamp with no bearing on the verified
properties and is dropped. -/
structure StoredRow where
  circular_number : String
  issued_date : Option String
  issued_by : Option String
  topic : Option String
  summary : Option String
  key_instructions : String
  applies_to : Option String
  deadline : Option String
  language : String
  pdf_path : Option String
  txt_path : Option String
deriving Repr, DecidableEq

/-- `save_to_db(circular, summary, lang_code, pdf_path, txt_path)`: the
stored row; the `key_instructions` column receives
`json.dumps(summary.get('key_instructions', []), ensure_ascii=False)`. -/
def save_to_db (number : String) (summary : ParsedFields)
    (lang_code : String) (pdf_path txt_path : Option String) : StoredRow :=
  { circular_number := number
    issued_date := summary.issued_date
    issued_by := summary.issued_by
    topic := summary.topic
    summary := summary.summary
    key_instructions := jsonDumpsStrList summary.key_instructions
    applies_to := summary.applies_to
    deadline := summary.deadline
    language := lang_code
    pdf_path := pdf_path
    txt_path := txt_path }

/-! ## Groq completion retry loop -/

/-- `'413' in err or 'rate_limit' in err or '429' in err`
(run_pipeline.py line 331). -/
def isRateLimitError (err : String) : Bool :=
  containsSub err "413" || containsSub err "rate_limit"
    || containsSub err "429"

/-- What one `client.chat.completions.create` attempt does: return a
reply whose message content is `content`, or raise an exception whose
string form is `msg`. -/
inductive GroqOutcome where
  | ok (content : String)
  | exn (msg : String)
deriving Repr, DecidableEq

/-- What a `summarise_with_groq` call did: the returned value (`none`
models Python `None`), the number of attempts actually made, and the
back-off sleeps performed, in order. -/
structure GroqRun where
  result : Option ParsedFields
  attemptsMade : Nat
  waits : List Nat
deriving Repr, DecidableEq

/-- The `for attempt in range(3)` body of `summarise_with_groq`
(run_pipeline.py lines 318-338): success on an attempt returns the
parsed reply at once; a rate-limit-class exception sleeps
`20 * (attempt + 1)` seconds and moves on to the next attempt; any other
exception returns `None` at once; falling off the loop returns `None`. -/
def groqLoop : List GroqOutcome → Nat → GroqRun
  | [], _ => ⟨none, 0, []⟩
  | o :: rest, attempt =>
    match o with
    | .ok content => ⟨some (parse_response content), 1, []⟩
    | .exn msg =>
      if isRateLimitError msg then
        let r := groqLoop rest (attempt + 1)
        ⟨r.result, r.attemptsMade + 1, 20 * (attempt + 1) :: r.waits⟩
      else ⟨none, 1, []⟩

/-- `summarise_with_groq` with the completion client's behaviour on
attempts 0, 1 and 2 supplied explicitly — `range(3)` can consume at most
those three outcomes. -/
def summarise_with_groq (o0 o1 o2 : GroqOutcome) : GroqRun :=
  groqLoop [o0, o1, o2] 0

/-! ## Scraping and change detection -/

/-- `DATE_PATTERN.match(date_str)` for
`DATE_PATTERN = ^(20\d\x7b2\x7d)-(\d\x7b2\x7d)-(\d\x7b2\x7d)$`
(run_pipeline.py line 63, new_detector.py line 52): the year group on a
match. -/
def dateYear (s : String) : Option String :=
  match s.data with
  | ['2', '0', y1, y2, '-', m1, m2, '-', d1, d2] =>
    if y1.isDigit && y2.isDigit && m1.isDigit && m2.isDigit
        && d1.isDigit && d2.isDigit then
      some (String.mk ['2', '0', y1, y2])
    else none
  | _ => none

/-- A `<tr>` as `parse_row` reads it: the stripped text of its `<td>`
cells, and the resolved detail link of the title cell when present. -/
structure RawRow where
  cells : List String
  detail_url : Option String
deriving Repr, DecidableEq

/-- The dict `parse_row` returns for a usable row. -/
structure ScrapedRow where
  number : String
  title : String
  date : String
  year : String
  detail_url : Option String
deriving Repr, DecidableEq

/-- `parse_row` (run_pipeline.py lines 72-86): at least three cells and
a date matching `DATE_PATTERN`, else `None`. -/
def parse_row (r : RawRow) : Option ScrapedRow :=
  match r.cells with
  | number :: title :: date_str :: _ =>
    match dateYear date_str with
    | some year => some ⟨number, title, date_str, year, r.detail_url⟩
    | none => none
  | _ => none

/-- `TARGET_YEARS` (run_pipeline.py line 37). -/
def TARGET_YEARS : List String := ["2025", "2026"]

/-- A row of `new_circulars` with its `needs_en` / `needs_si` flags. -/
structure AnnotatedRow where
  row : ScrapedRow
  needs_en : Bool
  needs_si : Bool
deriving Repr, DecidableEq

/-- The in-window part of the `for row in rows` body
(run_pipeline.py lines 126-135): annotate the row with which languages
are missing from `known_pairs` and append it iff any is needed. -/
def emitRow (known : List (String × String)) (r : ScrapedRow) :
    Option AnnotatedRow :=
  let needs_en := !(known.contains (r.number, "E"))
  let needs_si := !(known.contains (r.number, "S"))
  if needs_en || needs_si then some ⟨r, needs_en, needs_si⟩ else none

/-- Everything one page's row loop appends to `new_circulars`: rows with
an out-of-window year are skipped (they only set `found_old`), in-window
rows go through `emitRow`. -/
def emitNew (known : List (String × String)) (rs : List ScrapedRow) :
    List AnnotatedRow :=
  rs.filterMap fun r =>
    if r.year ∈ TARGET_YEARS then emitRow known r else none

/-- `found_old` after the row loop: some parsed row's year lies outside
`TARGET_YEARS`. -/
def anyOld (rs : List ScrapedRow) : Bool :=
  rs.any fun r => !(TARGET_YEARS.contains r.year)

/-- What one iteration's page fetch and soup parse produced. -/
inductive PageFetch where
  | fetchError
  | noTable
  | listing (rows : List RawRow)
deriving Repr, DecidableEq

/-- `scrape_new_circulars(known_pairs)` (run_pipeline.py lines 89-142)
over the successive page fetches the `while True` loop would perform at
offsets 0, 10, 20, …; the argument list is an arbitrarily long prefix of
those fetch results, and the walk stops early on a fetch error
(`requests` raised), fewer than two tables, a page with no parsable
rows, or — after collecting the page's in-window candidates — a page
containing an out-of-window row (`found_old`). -/
def scrape_new_circulars (known : List (String × String)) :
    List PageFetch → List AnnotatedRow
  | [] => []
  | .fetchError :: _ => []
  | .noTable :: _ => []
  | .listing raw :: rest =>
    let rows := raw.filterMap parse_row
    if rows.isEmpty then []
    else
      let page := emitNew known rows
      if anyOld rows then page
      else page ++ scrape_new_circulars known rest

/-- The per-page candidate list, for stating what a completed walk
returns. -/
def pageEmit (known : List (String × String)) : PageFetch → List AnnotatedRow
  | .listing raw => emitNew known (raw.filterMap parse_row)
  | _ => []

/-- A page the walk passes through without stopping: it has parsable
rows and none of them is out-of-window. -/
def goodListing : PageFetch → Bool
  | .listing raw =>
    !(raw.filterMap parse_row).isEmpty
      && !anyOld (raw.filterMap parse_row)
  | _ => false

/-! ## Credential configuration -/

/-- `reprocess_sinhala.py` line 18:
`GROQ_API_KEY = os.environ.get('GROQ_API_KEY', 'gsk_…')` — the
environment lookup carries a hard-coded fallback key, transcribed
verbatim from the source. -/
def reprocess_GROQ_API_KEY (env : Option String) : String :=
  env.getD "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"

/-- `ocr_vision.py` line 32:
`GOOGLE_VISION_API_KEY = os.environ.get('GOOGLE_VISION_API_KEY', '')`. -/
def vision_GOOGLE_VISION_API_KEY (env : Option String) : String :=
  env.getD ""

/-- `run_pipeline.py` line 29: `GROQ_API_KEY = os.environ['GROQ_API_KEY']`
— `none` models the `KeyError` that aborts the run at import time when
the variable is unset, before any network call. -/
def pipeline_GROQ_API_KEY (env : Option String) : Option String := env

/-! ## Concrete instances used by the claim witnesses -/

/-- The 950 confirmed successful cloud-OCR calls of Scenario A: the key is
configured and every Vision request succeeds. -/
def scenarioACalls : List CallEnv :=
  List.replicate 950 ⟨"key", "tess", .success "cloud"⟩

/-- A page whose native text is 150 ASCII characters: it meets both
minimum-character thresholds (50 and 100) yet holds no Sinhala. -/
def wideAsciiPage : VisionPage :=
  ⟨String.mk (List.replicate 150 'a'), "tess", .success "cloud"⟩

/-- A Sinhala-rich page: 120 copies of U+0D9A. -/
def sinhalaPage : VisionPage :=
  ⟨String.mk (List.replicate 120 (Char.ofNat 0x0d9a)), "tess",
    .success "cloud"⟩

/-- A first page wholly inside the target window. -/
def freshRawRow : RawRow := ⟨["07/2025", "New circular", "2025-09-01"], none⟩

/-- A later listing row from 2024, outside `TARGET_YEARS`. -/
def oldRawRow : RawRow := ⟨["55/2024", "Old circular", "2024-01-15"], none⟩

/-! ### Ledger lemmas -/

theorem increment_usage_pages (u : Usage) :
    (increment_usage u).pages_used = u.pages_used + 1 := rfl

theorem increment_usage_month (u : Usage) :
    (increment_usage u).month = u.month := rfl

/-- One `ocr_page` call never decreases the counter. -/
theorem ocr_page_mono (u : Usage) (k t : String) (o : CloudOutcome) :
    u.pages_used ≤ (ocr_page u k t o).usage.pages_used := by
  unfold ocr_page
  dsimp only
  split
  · exact le_refl _
  · split
    · exact le_refl _
    · cases o <;> simp [increment_usage]

/-- One `ocr_page` call preserves the cap `pages_used ≤ EFFECTIVE_CAP`. -/
theorem ocr_page_le_cap (u : Usage) (k t : String) (o : CloudOutcome)
    (h : u.pages_used ≤ EFFECTIVE_CAP) :
    (ocr_page u k t o).usage.pages_used ≤ EFFECTIVE_CAP := by
  unfold ocr_page
  dsimp only
  split
  · exact h
  · rename_i hrem
    have hlt : u.pages_used < EFFECTIVE_CAP := by
      simp only [not_le] at hrem
      omega
    split
    · exact h
    · cases o <;> simp [increment_usage] <;> omega

/-- One `ocr_page` call never touches the month key. -/
theorem ocr_page_month (u : Usage) (k t : String) (o : CloudOutcome) :
    (ocr_page u k t o).usage.month = u.month := by
  unfold ocr_page
  dsimp only
  split
  · rfl
  · split
    · rfl
    · cases o <;> rfl

theorem runCalls_mono (u : Usage) (cs : List CallEnv) :
    u.pages_used ≤ (runCalls u cs).pages_used := by
  induction cs generalizing u with
  | nil => exact le_refl _
  | cons e rest ih =>
      exact le_trans (ocr_page_mono u e.key e.tessText e.outcome)
        (ih (ocr_page u e.key e.tessText e.outcome).usage)

theorem runCalls_le_cap (u : Usage) (cs : List CallEnv)
    (h : u.pages_used ≤ EFFECTIVE_CAP) :
    (runCalls u cs).pages_used ≤ EFFECTIVE_CAP := by
  induction cs generalizing u with
  | nil => exact h
  | cons e rest ih =>
      exact ih _ (ocr_page_le_cap u e.key e.tessText e.outcome h)

theorem runCalls_month (u : Usage) (cs : List CallEnv) :
    (runCalls u cs).month = u.month := by
  induction cs generalizing u with
  | nil => rfl
  | cons e rest ih =>
      rw [runCalls, ih, ocr_page_month]

/-- Budget exhausted (`remaining <= 0`, i.e. `pages_used >= EFFECTIVE_CAP`):
`ocr_page` returns the Tesseract fallback untouched, for any key. -/
theorem ocr_page_capped (u : Usage) (k t : String) (o : CloudOutcome)
    (h : EFFECTIVE_CAP ≤ u.pages_used) :
    ocr_page u k t o = ⟨t, .tesseract, u⟩ := by
  unfold ocr_page
  dsimp only
  rw [if_pos]
  omega

/-- With budget open and a key configured, a successful call increments by
exactly one and reports `'vision'`. -/
theorem ocr_page_success (u : Usage) (k : String) (t s : String)
    (hcap : u.pages_used < EFFECTIVE_CAP) (hk : k ≠ "") :
    ocr_page u k t (.success s) = ⟨s, .vision, increment_usage u⟩ := by
  unfold ocr_page
  dsimp only
  rw [if_neg (by omega), if_neg hk]

/-- After `n` gated successful calls starting from `p` pages, with
`p + n ≤ EFFECTIVE_CAP`, the counter reads `p + n`. -/
theorem runCalls_success_count (m : String) (k t s : String) (hk : k ≠ "")
    (n p : Nat) (h : p + n ≤ EFFECTIVE_CAP) :
    (runCalls ⟨m, p⟩ (List.replicate n ⟨k, t, .success s⟩)).pages_used
      = p + n := by
  induction n generalizing p with
  | zero => rfl
  | succ n ih =>
      rw [List.replicate_succ, runCalls,
        ocr_page_success ⟨m, p⟩ k t s (show p < EFFECTIVE_CAP by omega) hk]
      have := ih (p + 1) (by omega)
      simpa [increment_usage, Nat.add_assoc, Nat.add_comm 1 n] using this

/-! ### Claims about the budget ledger -/

/-- C1: within a single month (the stored month key unchanged), the
ledger's `pages_used` is non-decreasing under every operation —
`increment_usage` only adds 1 and nothing ever decrements it — and,
provided the counter starts within the effective cap (it starts at 0 each
month and `ocr_page` performs the `remaining > 0` check before every
costed call), `pages_used` never exceeds
`monthly_cap − safety_buffer = 950`. -/
theorem claim_C1_budget_monotone_capped (u : Usage) (cs : List CallEnv)
    (h : u.pages_used ≤ EFFECTIVE_CAP) :
    (∀ v : Usage, (increment_usage v).pages_used = v.pages_used + 1
        ∧ (increment_usage v).month = v.month) ∧
    u.pages_used ≤ (runCalls u cs).pages_used ∧
    (runCalls u cs).pages_used ≤ MONTHLY_CAP - SAFETY_BUFFER ∧
    (runCalls u cs).month = u.month := by
  refine ⟨fun v => ⟨rfl, rfl⟩, runCalls_mono u cs, ?_, runCalls_month u cs⟩
  exact runCalls_le_cap u cs h

theorem claim_C1_budget_monotone_capped_witness :
    (⟨"2025-10", 0⟩ : Usage).pages_used ≤ EFFECTIVE_CAP ∧
    (runCalls ⟨"2025-10", 0⟩ [⟨"key", "tess", .success "txt"⟩]).pages_used
      ≤ MONTHLY_CAP - SAFETY_BUFFER :=
  ⟨by decide,
   (claim_C1_budget_monotone_capped ⟨"2025-10", 0⟩
      [⟨"key", "tess", .success "txt"⟩] (by decide)).2.2.1⟩

/-- C2: whenever `pages_used ≥ 950` (remaining budget zero), `ocr_page`
returns the local Tesseract result — method `'tesseract'`, ledger
untouched — regardless of key or cloud behaviour; and concretely, after
950 confirmed successful cloud calls in a month starting from 0, the
counter reads 950 and call #951 uses Tesseract and leaves the ledger
unchanged. -/
theorem claim_C2_cap_routes_to_tesseract :
    (∀ (u : Usage) (k t : String) (o : CloudOutcome),
        EFFECTIVE_CAP ≤ u.pages_used →
        (ocr_page u k t o).method = .tesseract ∧ (ocr_page u k t o).usage = u) ∧
    (runCalls ⟨"2025-10", 0⟩ scenarioACalls).pages_used = 950 ∧
    (∀ (k t : String) (o : CloudOutcome),
        ocr_page (runCalls ⟨"2025-10", 0⟩ scenarioACalls) k t o
          = ⟨t, .tesseract, runCalls ⟨"2025-10", 0⟩ scenarioACalls⟩) := by
  have h950 : (runCalls ⟨"2025-10", 0⟩ scenarioACalls).pages_used = 950 :=
    runCalls_success_count "2025-10" "key" "tess" "cloud" (by decide) 950 0
      (by decide)
  refine ⟨fun u k t o h => ?_, h950, fun k t o => ?_⟩
  · rw [ocr_page_capped u k t o h]
    exact ⟨rfl, rfl⟩
  · exact ocr_page_capped _ k t o (by rw [h950]; decide)

theorem claim_C2_cap_routes_to_tesseract_witness :
    EFFECTIVE_CAP ≤ (⟨"2025-11", 950⟩ : Usage).pages_used ∧
    (ocr_page ⟨"2025-11", 950⟩ "key" "tess" (.success "cloud")).method
      = .tesseract :=
  ⟨by decide,
   (claim_C2_cap_routes_to_tesseract.1 ⟨"2025-11", 950⟩ "key" "tess"
      (.success "cloud") (by decide)).1⟩

/-- C3: on any cloud error `ocr_page` returns the Tesseract result with
the ledger unchanged; the counter is bumped by exactly 1 precisely when a
cloud call was made (budget open, key configured) and returned a confirmed
result, and it is never decremented. -/
theorem claim_C3_increment_only_on_confirmed_success (u : Usage)
    (k t : String) (o : CloudOutcome) :
    (o.isSuccess = false →
      (ocr_page u k t o).usage = u ∧ (ocr_page u k t o).method = .tesseract) ∧
    (ocr_page u k t o).usage.pages_used
      = u.pages_used
        + (if u.pages_used < EFFECTIVE_CAP ∧ k ≠ "" ∧ o.isSuccess = true
           then 1 else 0) ∧
    u.pages_used ≤ (ocr_page u k t o).usage.pages_used := by
  refine ⟨?_, ?_, ocr_page_mono u k t o⟩
  · intro hfail
    unfold ocr_page
    dsimp only
    split
    · exact ⟨rfl, rfl⟩
    · split
      · exact ⟨rfl, rfl⟩
      · cases o with
        | success s => simp [CloudOutcome.isSuccess] at hfail
        | httpError c b => exact ⟨rfl, rfl⟩
        | otherError m => exact ⟨rfl, rfl⟩
  · by_cases hrem : ((EFFECTIVE_CAP : Int) - (u.pages_used : Int)) ≤ 0
    · have hnot : ¬ (u.pages_used < EFFECTIVE_CAP ∧ k ≠ "" ∧ o.isSuccess = true) := by
        rintro ⟨hlt, -, -⟩
        omega
      simp [ocr_page, hrem, hnot]
    · have hlt : u.pages_used < EFFECTIVE_CAP := by
        simp only [not_le] at hrem
        omega
      by_cases hk : k = ""
      · have hnot : ¬ (u.pages_used < EFFECTIVE_CAP ∧ k ≠ "" ∧ o.isSuccess = true) := by
          rintro ⟨-, hk', -⟩
          exact hk' hk
        simp [ocr_page, hrem, hk, hnot]
      · cases o with
        | success s =>
            simp [ocr_page, hrem, hk, hlt, increment_usage,
              CloudOutcome.isSuccess]
        | httpError c b =>
            simp [ocr_page, hrem, hk, CloudOutcome.isSuccess]
        | otherError m =>
            simp [ocr_page, hrem, hk, CloudOutcome.isSuccess]

theorem claim_C3_increment_only_on_confirmed_success_witness :
    (CloudOutcome.otherError "timed out").isSuccess = false ∧
    (ocr_page ⟨"2025-10", 7⟩ "key" "tess"
        (.otherError "timed out")).usage = ⟨"2025-10", 7⟩ ∧
    (ocr_page ⟨"2025-10", 7⟩ "key" "tess"
        (.otherError "timed out")).method = .tesseract :=
  ⟨rfl,
   (claim_C3_increment_only_on_confirmed_success ⟨"2025-10", 7⟩ "key" "tess"
      (.otherError "timed out")).1 rfl⟩

/-! ### Claims about the ladder -/

set_option maxRecDepth 8000 in
/-- C4 counterexample: in `ocr_vision.extract_text` a page whose native
text meets the minimum character threshold (150 chars > 100 > 50) is
nevertheless sent to OCR — here a costed cloud call that increments the
ledger — and tallied `vision`, not `native`, because the acceptance test
also requires a 5% Sinhala ratio.  This refutes the claim that either
`extract_text` issues no OCR call for such a page. -/
theorem claim_C4_native_threshold_cex :
    100 < wideAsciiPage.native.length ∧
    MIN_CHARS_PAGE ≤ wideAsciiPage.native.length ∧
    (extract_text_vision "key" ⟨"2025-10", 0⟩ ⟨0, 0, 0⟩ 0
        [wideAsciiPage]).2.1 = ⟨0, 1, 0⟩ ∧
    (extract_text_vision "key" ⟨"2025-10", 0⟩ ⟨0, 0, 0⟩ 0
        [wideAsciiPage]).2.2.pages_used = 1 := by
  refine ⟨by decide, by decide, ?_, ?_⟩ <;> rfl

/-- C4 as amended: in `run_pipeline.extract_text` a page whose native
text meets `MIN_CHARS_PAGE` is accepted natively and no OCR of any tier
runs; in `ocr_vision.extract_text` a page is accepted natively — no
`ocr_page` call, ledger untouched, tallied `native` — exactly when its
native text both exceeds 100 characters and has a Sinhala ratio of at
least 0.05. -/
theorem claim_C4_native_acceptance (i : Nat) (b : Bool) (k : String)
    (u : Usage) (st : VisionStats) (pg : PipelinePage) (vg : VisionPage)
    (rest : List PipelinePage) (vrest : List VisionPage)
    (hp : MIN_CHARS_PAGE ≤ pg.native.length)
    (hv1 : 100 < vg.native.length)
    (hv2 : vg.native.length ≤ 20 * siCount vg.native) :
    extract_text_pipeline i b (pg :: rest)
      = (("\n--- Page " ++ toString (i + 1) ++ " ---\n" ++ pg.native)
          ++ (extract_text_pipeline (i + 1) b rest).1,
         (extract_text_pipeline (i + 1) b rest).2) ∧
    extract_text_vision k u st i (vg :: vrest)
      = (("\n--- Page " ++ toString (i + 1) ++ " [native] ---\n" ++ vg.native)
          ++ (extract_text_vision k u (st.bump .native) (i + 1) vrest).1,
         (extract_text_vision k u (st.bump .native) (i + 1) vrest).2) := by
  constructor
  · rw [extract_text_pipeline, if_pos hp]
  · rw [extract_text_vision, if_pos]
    unfold visionPageNativeOk
    simp [hv1, hv2]

set_option maxRecDepth 8000 in
theorem claim_C4_native_acceptance_witness :
    MIN_CHARS_PAGE ≤ (⟨String.mk (List.replicate 60 'b'), "o"⟩ :
        PipelinePage).native.length ∧
    100 < sinhalaPage.native.length ∧
    sinhalaPage.native.length ≤ 20 * siCount sinhalaPage.native ∧
    (extract_text_vision "key" ⟨"2025-10", 0⟩ ⟨0, 0, 0⟩ 0
        [sinhalaPage]).2.2 = ⟨"2025-10", 0⟩ := by
  refine ⟨by decide, by decide, by decide, ?_⟩
  rw [(claim_C4_native_acceptance 0 false "key" ⟨"2025-10", 0⟩ ⟨0, 0, 0⟩
    ⟨String.mk (List.replicate 60 'b'), "o"⟩ sinhalaPage [] []
    (by decide) (by decide) (by decide)).2]
  rfl

/-! ### Claims about the parser and the stored row -/

set_option maxRecDepth 8000 in
/-- C8: a reply consisting solely of `TOPIC: X` parses — in both
`parse_response` implementations — to a record whose topic is `X` and
whose every other field is empty or absent, with no error (both parsers
are total functions by construction); a `null` value (case-insensitive)
is mapped to an absent value, and lines without a recognized label are
ignored. -/
theorem claim_C8_topic_only_reply :
    parse_response "TOPIC: X" = { topic := some "X" } ∧
    parse_response_reprocess "TOPIC: X" = { topic := some "X" } ∧
    (parse_response "TOPIC: NULL").topic = none ∧
    (parse_response_reprocess "DEADLINE: null").deadline = none ∧
    parse_response "no recognised label here\nTOPIC: X\n???"
      = parse_response "TOPIC: X" := by
  refine ⟨?_, ?_, ?_, ?_, ?_⟩ <;> decide

theorem applyLine_key_instructions (acc : ParsedFields) (line : String) :
    (applyLine acc line).key_instructions = acc.key_instructions := by
  unfold applyLine
  split
  · dsimp only
    repeat' split
    all_goals rfl
  · rfl

theorem foldl_applyLine_key_instructions (lines : List String)
    (acc : ParsedFields) :
    (lines.foldl applyLine acc).key_instructions = acc.key_instructions := by
  induction lines generalizing acc with
  | nil => rfl
  | cons l rest ih =>
    rw [List.foldl_cons, ih, applyLine_key_instructions]

/-- C10: whatever the completion service replies, the row the pipeline
persists stores the JSON-encoded empty list in `key_instructions`:
`parse_response` defaults the field to the empty list, no label can
populate it, and `save_to_db` JSON-encodes it. -/
theorem claim_C10_key_instructions_always_empty_json
    (raw number lang : String) (pdf txt : Option String) :
    (save_to_db number (parse_response raw) lang pdf txt).key_instructions
      = "[]" := by
  show jsonDumpsStrList (parse_response raw).key_instructions = "[]"
  rw [parse_response, foldl_applyLine_key_instructions]
  rfl

theorem claim_C10_key_instructions_always_empty_json_witness :
    (save_to_db "01/2025" (parse_response "TOPIC: X\nSUMMARY: Y") "E"
        none none).key_instructions = "[]" :=
  claim_C10_key_instructions_always_empty_json "TOPIC: X\nSUMMARY: Y"
    "01/2025" "E" none none

/-! ### Claims about the retry loop -/

theorem groqLoop_attempts_le (outs : List GroqOutcome) (att : Nat) :
    (groqLoop outs att).attemptsMade ≤ outs.length := by
  induction outs generalizing att with
  | nil => exact Nat.le_refl 0
  | cons o rest ih =>
    cases o with
    | ok c => simp [groqLoop]
    | exn m =>
      by_cases h : isRateLimitError m
      · simpa [groqLoop, h, Nat.succ_le_succ_iff] using ih (att + 1)
      · simp [groqLoop, h]

/-- C5: `summarise_with_groq` makes at most 3 attempts; under a
sustained rate-limit condition it waits 20, 40 and 60 seconds after
attempts 0, 1 and 2 (i.e. `20 × (attempt + 1)`), makes exactly 3
attempts and returns `None` as a reported failure (the loop swallows the
exception); on a non-rate-limit error it returns `None` after a single
attempt with no wait. -/
theorem claim_C5_retry_policy :
    (∀ m0 m1 m2 : String,
        isRateLimitError m0 = true → isRateLimitError m1 = true →
        isRateLimitError m2 = true →
        summarise_with_groq (.exn m0) (.exn m1) (.exn m2)
          = ⟨none, 3, [20, 40, 60]⟩) ∧
    (∀ (m0 : String) (o1 o2 : GroqOutcome),
        isRateLimitError m0 = false →
        summarise_with_groq (.exn m0) o1 o2 = ⟨none, 1, []⟩) ∧
    (∀ o0 o1 o2 : GroqOutcome,
        (summarise_with_groq o0 o1 o2).attemptsMade ≤ 3) := by
  refine ⟨?_, ?_, ?_⟩
  · intro m0 m1 m2 h0 h1 h2
    simp [summarise_with_groq, groqLoop, h0, h1, h2]
  · intro m0 o1 o2 h0
    simp [summarise_with_groq, groqLoop, h0]
  · intro o0 o1 o2
    exact groqLoop_attempts_le [o0, o1, o2] 0

theorem claim_C5_retry_policy_witness :
    isRateLimitError "Error code 429 - rate_limit exceeded" = true ∧
    summarise_with_groq
        (.exn "Error code 429 - rate_limit exceeded")
        (.exn "Error code 429 - rate_limit exceeded")
        (.exn "Error code 429 - rate_limit exceeded")
      = ⟨none, 3, [20, 40, 60]⟩ :=
  ⟨rfl, claim_C5_retry_policy.1 _ _ _ rfl rfl rfl⟩

/-! ### Claims about change detection and pagination -/

theorem contains_eq_decide_mem (l : List (String × String))
    (p : String × String) : l.contains p = decide (p ∈ l) := by
  by_cases h : p ∈ l <;> simp [h]

/-- C6: for an in-window row, the detector computes
`needs_en = ((number, E) ∉ known_pairs)` and
`needs_si = ((number, S) ∉ known_pairs)` and emits the row iff at least
one language is needed; with known pairs containing exactly
`("10/2025", "E")` and a listing carrying `10/2025`, the walk emits the
row with `needs_en = false` and `needs_si = true`. -/
theorem claim_C6_needs_flags (known : List (String × String))
    (r : ScrapedRow) (hy : r.year ∈ TARGET_YEARS) :
    emitNew known [r]
      = (if (r.number, "E") ∉ known ∨ (r.number, "S") ∉ known
         then [⟨r, decide ((r.number, "E") ∉ known),
                 decide ((r.number, "S") ∉ known)⟩]
         else []) ∧
    scrape_new_circulars [("10/2025", "E")]
        [.listing [⟨["10/2025", "Circular title", "2025-10-01"], some "u"⟩]]
      = [⟨⟨"10/2025", "Circular title", "2025-10-01", "2025", some "u"⟩,
          false, true⟩] := by
  constructor
  · show List.filterMap _ [r] = _
    rw [List.filterMap_cons]
    rw [if_pos hy]
    unfold emitRow
    rw [contains_eq_decide_mem, contains_eq_decide_mem]
    by_cases he : (r.number, "E") ∈ known <;>
      by_cases hs : (r.number, "S") ∈ known <;>
      simp [he, hs]
  · rfl

theorem claim_C6_needs_flags_witness :
    (⟨"10/2025", "t", "2025-10-01", "2025", none⟩ : ScrapedRow).year
        ∈ TARGET_YEARS ∧
    emitNew [("10/2025", "E")] [⟨"10/2025", "t", "2025-10-01", "2025", none⟩]
      = (if ("10/2025", "E") ∉ ([("10/2025", "E")] : List (String × String))
            ∨ ("10/2025", "S") ∉ ([("10/2025", "E")] : List (String × String))
         then [⟨⟨"10/2025", "t", "2025-10-01", "2025", none⟩,
                 decide (("10/2025", "E")
                   ∉ ([("10/2025", "E")] : List (String × String))),
                 decide (("10/2025", "S")
                   ∉ ([("10/2025", "E")] : List (String × String)))⟩]
         else []) :=
  ⟨by decide,
   (claim_C6_needs_flags [("10/2025", "E")]
      ⟨"10/2025", "t", "2025-10-01", "2025", none⟩ (by decide)).1⟩

theorem scrape_append_good (known : List (String × String))
    (ps : List PageFetch) (h : ∀ p ∈ ps, goodListing p = true)
    (tail : List PageFetch) :
    scrape_new_circulars known (ps ++ tail)
      = (ps.map (pageEmit known)).flatten ++ scrape_new_circulars known tail := by
  induction ps with
  | nil => simp
  | cons p rest ih =>
    have hp : goodListing p = true := h p (List.mem_cons_self p rest)
    have hrest : ∀ q ∈ rest, goodListing q = true :=
      fun q hq => h q (List.mem_cons_of_mem p hq)
    cases p with
    | fetchError => simp [goodListing] at hp
    | noTable => simp [goodListing] at hp
    | listing raw =>
      have hne : (raw.filterMap parse_row).isEmpty = false := by
        unfold goodListing at hp
        cases hh : (raw.filterMap parse_row).isEmpty <;>
          simp [hh] at hp ⊢
      have hold : anyOld (raw.filterMap parse_row) = false := by
        unfold goodListing at hp
        cases hh : anyOld (raw.filterMap parse_row) <;>
          simp [hh] at hp ⊢
      show scrape_new_circulars known (.listing raw :: (rest ++ tail)) = _
      rw [scrape_new_circulars]
      simp only [hne, hold, Bool.false_eq_true, if_false]
      rw [ih hrest]
      simp [pageEmit, List.append_assoc]

/-- C7: once the walk reaches a page containing an out-of-window row, it
fetches no page beyond it — the result equals the result on the listing
truncated at that page — and that result still carries every in-window
candidate collected from the earlier pages and from the current page;
likewise a page-fetch error ends the walk and the partial list from
earlier pages is returned rather than discarded. -/
theorem claim_C7_halt_keeps_collected (known : List (String × String))
    (ps : List PageFetch) (h : ∀ p ∈ ps, goodListing p = true) :
    (∀ (raw : List RawRow) (rest rest' : List PageFetch),
        anyOld (raw.filterMap parse_row) = true →
        scrape_new_circulars known (ps ++ .listing raw :: rest)
            = (ps.map (pageEmit known)).flatten
                ++ emitNew known (raw.filterMap parse_row) ∧
        scrape_new_circulars known (ps ++ .listing raw :: rest)
            = scrape_new_circulars known (ps ++ .listing raw :: rest')) ∧
    (∀ rest : List PageFetch,
        scrape_new_circulars known (ps ++ .fetchError :: rest)
          = (ps.map (pageEmit known)).flatten) := by
  constructor
  · intro raw rest rest' hold
    have hne : (raw.filterMap parse_row).isEmpty = false := by
      cases hh : raw.filterMap parse_row with
      | nil => rw [hh] at hold; simp [anyOld] at hold
      | cons a t => rfl
    have hstop : ∀ tl : List PageFetch,
        scrape_new_circulars known (.listing raw :: tl)
          = emitNew known (raw.filterMap parse_row) := by
      intro tl
      rw [scrape_new_circulars]
      simp only [hne, Bool.false_eq_true, if_false, hold, if_true]
    constructor
    · rw [scrape_append_good known ps h, hstop]
    · rw [scrape_append_good known ps h, scrape_append_good known ps h,
        hstop, hstop]
  · intro rest
    rw [scrape_append_good known ps h]
    show _ ++ ([] : List AnnotatedRow) = _
    exact List.append_nil _

theorem claim_C7_halt_keeps_collected_witness :
    (∀ p ∈ [PageFetch.listing [freshRawRow]], goodListing p = true) ∧
    anyOld ([oldRawRow].filterMap parse_row) = true ∧
    scrape_new_circulars []
        ([PageFetch.listing [freshRawRow]]
          ++ .listing [oldRawRow] :: [.listing [freshRawRow]])
      = ([PageFetch.listing [freshRawRow]].map (pageEmit [])).flatten
          ++ emitNew [] ([oldRawRow].filterMap parse_row) :=
  ⟨by decide, by decide,
   ((claim_C7_halt_keeps_collected [] [PageFetch.listing [freshRawRow]]
      (by decide)).1 [oldRawRow] [.listing [freshRawRow]] [] (by decide)).1⟩

/-! ### Claim about credential handling -/

/-- C9: the claim that no key value is embedded in the source fails on
`reprocess_sinhala.py`: with the environment variable unset, its
`GROQ_API_KEY` is the non-empty hard-coded fallback key, so the
component proceeds to call the completion service with an embedded
credential.  The other two components do obtain their keys exclusively
from the environment: the Vision key defaults to the empty string and
`ocr_page` then degrades to Tesseract even with budget available, and
the pipeline's Groq lookup aborts the run when unset. -/
theorem claim_C9_reprocess_embedded_key :
    reprocess_GROQ_API_KEY none
      = "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" ∧
    reprocess_GROQ_API_KEY none ≠ "" ∧
    vision_GOOGLE_VISION_API_KEY none = "" ∧
    ocr_page ⟨"2025-10", 0⟩ (vision_GOOGLE_VISION_API_KEY none) "tess"
        (.success "cloud")
      = ⟨"tess", .tesseract, ⟨"2025-10", 0⟩⟩ ∧
    pipeline_GROQ_API_KEY none = none := by
  refine ⟨rfl, by decide, rfl, ?_, rfl⟩
  rfl

end Circulars
